import Mathlib

/-!
Shallow embedding of the PowerControllerViewer state cache and reload
coordinator (src/src/helper.py, src/src/views.py and the older
src/helper.py variant).

JSON documents are modelled by the inductive type JVal.  Python dicts are
association lists (first occurrence wins on lookup; assignment replaces the
value in place or appends a fresh key at the end, matching CPython
insertion-order semantics).  Python exceptions are the inductive PyExc and
fallible code returns Except PyExc.  Decoded datetime objects
(produced upstream by the external sc_utility JSONEncoder.decode_object)
are represented by the opaque constructor JVal.pydt carrying a token;
astimezone is an environment function on tokens.
-/

/-- Python / JSON values after JSONEncoder.decode_object (external sc_utility
library) has been applied.  pydt is an opaque decoded datetime token. -/
inductive JVal where
  | null
  | bool (b : Bool)
  | int (n : Int)
  | str (s : String)
  | arr (xs : List JVal)
  | obj (fields : List (String × JVal))
  | pydt (t : Nat)

/-- A Python dict with string keys, as an insertion-ordered association list. -/
abbrev Obj := List (String × JVal)

/-- Python exception classes that appear in the sources. -/
inductive PyExc where
  | osError
  | jsonDecodeError
  | runtimeError
  | valueError
  | typeError
  | keyError
  | indexError
  | attributeError
  | assertionError
deriving DecidableEq

/-- Python dict lookup `d.get(k)` restricted to presence: first matching key. -/
def lookupObj : Obj → String → Option JVal
  | [], _ => none
  | (k', v) :: rest, k => if k' = k then some v else lookupObj rest k

/-- Python dict assignment `d[k] = v`: replace in place, else append. -/
def setKey : Obj → String → JVal → Obj
  | [], k, v => [(k, v)]
  | (k', v') :: rest, k, v =>
      if k' = k then (k, v) :: rest else (k', v') :: setKey rest k v

/-- Python truthiness of a value. -/
def truthy : JVal → Bool
  | .null => false
  | .bool b => b
  | .int n => n != 0
  | .str s => !s.isEmpty
  | .arr [] => false
  | .arr (_ :: _) => true
  | .obj [] => false
  | .obj (_ :: _) => true
  | .pydt _ => true

/-- Whether a value is Python None. -/
def isNull : JVal → Bool
  | .null => true
  | _ => false

/-- Python s.startswith(p), over the underlying character list so that
concrete instances reduce definitionally. -/
def strStartsWith (s p : String) : Bool := p.data.isPrefixOf s.data

/-- Python s.endswith(p), over the underlying character list. -/
def strEndsWith (s p : String) : Bool := p.data.reverse.isPrefixOf s.data.reverse

/-- Lexicographic code-point comparison of character lists (the order the
Python sorted builtin uses on strings). -/
def strLtChars : List Char → List Char → Bool
  | [], [] => false
  | [], _ :: _ => true
  | _ :: _, [] => false
  | a :: as, b :: bs =>
      if a.toNat < b.toNat then true
      else if b.toNat < a.toNat then false
      else strLtChars as bs

/-- String order used when sorting file names. -/
def strLe (s t : String) : Bool := !(strLtChars t.data s.data)

/-- Extract a Python string. -/
def asString : JVal → Option String
  | .str s => some s
  | _ => none

-- ===================== Safe File I/O (helper.py lines 929-1000) ==========

/-- Outcome of one read attempt inside _safe_read_json: the locked file is
empty, parses to a document, or raises an OS / JSON-parse error. -/
inductive RAttempt where
  | emptyFile
  | okDoc (v : JVal)
  | osFail
  | parseFail

/-- The exception a failing read attempt raises. -/
def rExc : RAttempt → PyExc
  | .parseFail => .jsonDecodeError
  | _ => .osError

/-- Is this attempt outcome one of the retried failures? -/
def rIsFail : RAttempt → Bool
  | .osFail => true
  | .parseFail => true
  | _ => false

/-- The retry loop of _safe_read_json.  att gives the outcome of each
attempt; remaining counts loop iterations left.  An empty file returns None
immediately (with a logged warning); a parsed document is returned; an
OSError / JSONDecodeError is retried while `attempt < max_retries - 1` and
re-raised on the last attempt.  Falling out of the loop returns None
(line 963). -/
def safeReadGo (att : Nat → RAttempt) (idx : Nat) : Nat → Except PyExc (Option JVal)
  | 0 => .ok none
  | r + 1 =>
      match att idx with
      | .emptyFile => .ok none
      | .okDoc v => .ok (some v)
      | .osFail => if r = 0 then .error .osError else safeReadGo att (idx + 1) r
      | .parseFail => if r = 0 then .error .jsonDecodeError else safeReadGo att (idx + 1) r

/-- Model of _safe_read_json(file_path, max_retries=3): shared lock, zero-length
check, json.load, bounded retry. -/
def safe_read_json (att : Nat → RAttempt) (maxRetries : Nat) : Except PyExc (Option JVal) :=
  safeReadGo att 0 maxRetries

/-- Outcome of one write attempt inside _safe_write_json: the temp-file
write plus rename both succeed, the temp write raises OSError midway
(leaving a torn temp file), or the atomic rename raises OSError (leaving
the destination untouched). -/
inductive WAttempt where
  | ok
  | tempWriteFail
  | replaceFail
deriving DecidableEq

/-- Contents of a file as observable by a reader: either a complete JSON
document or a torn (partially written) one. -/
inductive FileContent where
  | complete (v : JVal)
  | torn (v : JVal)

/-- The two files _safe_write_json touches: the destination and the sibling
temporary file (file_path.with_suffix ".tmp"). -/
structure WriteFS where
  dest : FileContent
  temp : Option FileContent

/-- Result of the modelled _safe_write_json: the Python result (True, False
on loop fall-through, or a raised OSError), the number of attempts used,
the final file-system state, and the trace of destination contents
observable after each attempt. -/
structure WriteOutcome where
  result : Except PyExc Bool
  attemptsUsed : Nat
  fs : WriteFS
  destTrace : List FileContent

/-- The retry loop of _safe_write_json.  Each attempt writes `data` to the
sibling temp file (under an exclusive lock, flushed) and then atomically
renames it over the destination; the destination changes only at a
successful rename, so it never holds a torn document.  OSError is retried
while `attempt < max_retries - 1` and re-raised on the last attempt;
success returns True; loop exhaustion returns False (line 1000). -/
def safeWriteGo (data : JVal) (att : Nat → WAttempt) (idx : Nat) :
    Nat → WriteFS → WriteOutcome
  | 0, fs => ⟨.ok false, idx, fs, []⟩
  | r + 1, fs =>
      match att idx with
      | .ok =>
          let fs' : WriteFS := ⟨.complete data, none⟩
          ⟨.ok true, idx + 1, fs', [fs'.dest]⟩
      | .tempWriteFail =>
          let fs' : WriteFS := ⟨fs.dest, some (.torn data)⟩
          if r = 0 then ⟨.error .osError, idx + 1, fs', [fs'.dest]⟩
          else
            let rest := safeWriteGo data att (idx + 1) r fs'
            ⟨rest.result, rest.attemptsUsed, rest.fs, fs'.dest :: rest.destTrace⟩
      | .replaceFail =>
          let fs' : WriteFS := ⟨fs.dest, some (.complete data)⟩
          if r = 0 then ⟨.error .osError, idx + 1, fs', [fs'.dest]⟩
          else
            let rest := safeWriteGo data att (idx + 1) r fs'
            ⟨rest.result, rest.attemptsUsed, rest.fs, fs'.dest :: rest.destTrace⟩

/-- Model of _safe_write_json(file_path, data, max_retries=3) starting from a
destination holding the old complete document. -/
def safe_write_json (data old : JVal) (att : Nat → WAttempt) (maxRetries : Nat) :
    WriteOutcome :=
  safeWriteGo data att 0 maxRetries ⟨.complete old, none⟩

-- ========== Device-name URL encoding (helper.py lines 596-610) ===========

/-- One hex digit, uppercase, as urllib.parse.quote produces. -/
def hexDigit (n : Nat) : Char :=
  if n < 10 then Char.ofNat (48 + n) else Char.ofNat (55 + n)

/-- Two-digit uppercase hex of a byte. -/
def hexByte (b : Nat) : String :=
  String.singleton (hexDigit (b / 16 % 16)) ++ String.singleton (hexDigit (b % 16))

/-- UTF-8 bytes of a code point, as urllib.parse.quote encodes non-ASCII. -/
def utf8Bytes (n : Nat) : List Nat :=
  if n < 128 then [n]
  else if n < 2048 then [192 + n / 64, 128 + n % 64]
  else if n < 65536 then [224 + n / 4096, 128 + n / 64 % 64, 128 + n % 64]
  else [240 + n / 262144, 128 + n / 4096 % 64, 128 + n / 64 % 64, 128 + n % 64]

/-- Characters urllib.parse.quote leaves as-is (unreserved plus the default
safe character "/"). -/
def quoteSafeChar (c : Char) : Bool :=
  c.isAlpha || c.isDigit || c = '_' || c = '.' || c = '-' || c = '~' || c = '/'

/-- urllib.parse.quote on one character. -/
def quoteChar (c : Char) : String :=
  if quoteSafeChar c then String.singleton c
  else String.join ((utf8Bytes c.toNat).map (fun b => "%" ++ hexByte b))

/-- urllib.parse.quote with default safe characters. -/
def quoteStr (s : String) : String :=
  String.join (s.toList.map quoteChar)

/-- url_encode_device_name: strip space, "/", backslash and "-", then
percent-encode the rest. -/
def url_encode_device_name (deviceName : String) : String :=
  quoteStr (String.mk (deviceName.toList.filter
    (fun c => !(c = ' ' || c = '/' || c = '\\' || c = '-'))))

-- ========== Per-file load transform (helper.py lines 805-856) ============

/-- Environment of external effects used during a reload: astimezone on
decoded datetime tokens, the current time DateHelper.now(), whether the
static artifact directory resolves, and which chart files the external
matplotlib plotting routine (the artifact generator, out of the scope of the
cache) produces successfully. -/
structure LoadEnv where
  az : Nat → Nat
  now : Nat
  staticOk : Bool
  chartOk : String → Bool

/-- The result of a _safe_read_json call on one state file, as seen by
_load_state_files_internal: a raised error, an empty/unreadable file
(None), or the decoded document. -/
inductive ReadResult where
  | error (e : PyExc)
  | empty
  | okVal (v : JVal)

/-- state_item.get("Output", default-empty-dict).get("Type"): raises
AttributeError when "Output" holds a non-dict value. -/
def outputTypeOf (doc : Obj) : Except PyExc (Option JVal) :=
  match lookupObj doc "Output" with
  | none => .ok none
  | some (.obj o) => .ok (lookupObj o "Type")
  | some _ => .error .attributeError

/-- Lines 814-836: derive the device description and the raw last-save-time
value from StateFileType.  A missing save-time key and a JSON null both
surface as Python None (JVal.null here). -/
def computeDescSave (doc : Obj) : Except PyExc (String × JVal) :=
  match lookupObj doc "StateFileType" with
  | some (.str "LightingControl") =>
      .ok ("Lighting Controller", (lookupObj doc "LastStateSaveTime").getD .null)
  | some (.str "PowerController") =>
      match outputTypeOf doc with
      | .error e => .error e
      | .ok t =>
          let desc :=
            match t with
            | some (.str "teslamate") => "Tesla Charging"
            | some (.str "meter") => "Energy Meter"
            | _ => "Power Controller"
          .ok (desc, (lookupObj doc "SaveTime").getD .null)
  | some (.str "TempProbes") =>
      .ok ("Temperature Probes", (lookupObj doc "SaveTime").getD .null)
  | some (.str "OutputMetering") =>
      .ok ("Metered Outputs", (lookupObj doc "SaveTime").getD .null)
  | _ => .ok ("Unknown Device", .null)

/-- Line 839-840: `if isinstance(last_save_time, dt.datetime):
last_save_time = last_save_time.astimezone()`. -/
def astimezoneIfDt (env : LoadEnv) : JVal → JVal
  | .pydt t => .pydt (env.az t)
  | v => v

/-- state_item.get("DeviceName", default "Device-idx-plus-1"): the fallback
comes from the enumeration index over the sorted json file list, not from
the file name.  A present non-string DeviceName makes the subsequent
.replace calls of url_encode_device_name raise AttributeError. -/
def deviceNameOrDefault (d : Obj) (idx : Nat) : Except PyExc String :=
  match lookupObj d "DeviceName" with
  | none => .ok ("Device" ++ toString (idx + 1))
  | some (.str s) => .ok s
  | some _ => .error .attributeError

/-- str(value) as used when a device name lands in an f-string.  Container
reprs are abbreviated; they only feed artifact file names. -/
def pyStr : JVal → String
  | .str s => s
  | .int n => toString n
  | .bool true => "True"
  | .bool false => "False"
  | .null => "None"
  | .pydt t => "datetime-" ++ toString t
  | .arr _ => "pylist"
  | .obj _ => "pydict"

/-- d.get("TempProbeLogging", default-empty-dict).get(k): AttributeError on
a present non-dict value. -/
def tplGet (d : Obj) (k : String) : Except PyExc JVal :=
  match lookupObj d "TempProbeLogging" with
  | none => .ok .null
  | some (.obj o) => .ok ((lookupObj o k).getD .null)
  | some _ => .error .attributeError

/-- d.get("Charting", default-empty-dict).get(k): AttributeError on a
present non-dict value. -/
def chartingGet (d : Obj) (k : String) : Except PyExc JVal :=
  match lookupObj d "Charting" with
  | none => .ok .null
  | some (.obj o) => .ok ((lookupObj o k).getD .null)
  | some _ => .error .attributeError

/-- Evaluation of `value or empty-list` followed by iteration: a falsy value yields the
empty list, a truthy list yields its elements, and iterating a truthy
non-list value raises a type-shaped error (approximating the CPython
behaviour on non-iterable or wrongly-shaped values). -/
def orEmptyList (v : JVal) : Except PyExc (List JVal) :=
  if truthy v then
    match v with
    | .arr xs => .ok xs
    | _ => .error .typeError
  else .ok []

/-- Lines 1049-1072: one chart per entry of the Charting.Charts list; the
chart file name is Chart_(state name)-(config index).jpg and only names
whose generation succeeds (env.chartOk) are recorded.  A non-dict chart
config raises AttributeError at chart_config.get.  Probe-name resolution
and the matplotlib plotting internals are the external artifact generator
and are abstracted by env.chartOk. -/
def chartNames (env : LoadEnv) (stateName : String) : List JVal → Nat → Except PyExc (List String)
  | [], _ => .ok []
  | cfg :: rest, i =>
      match cfg with
      | .obj _ =>
          let fn := "Chart_" ++ stateName ++ "-" ++ toString i ++ ".jpg"
          (match chartNames env stateName rest (i + 1) with
           | .error e => .error e
           | .ok ns => .ok (if env.chartOk fn then fn :: ns else ns))
      | _ => .error .attributeError

/-- state_name on line 1024: the DeviceName if truthy, else the
index-based fallback. -/
def stateNameOf (d : Obj) (idx : Nat) : String :=
  match lookupObj d "DeviceName" with
  | some v => if truthy v then pyStr v else "State " ++ toString idx
  | none => "State " ++ toString idx

/-- Guard of _generate_state_data_charts (lines 1006-1072) restricted to its effect
on the state item: under the guard (truthy probe history, TempProbeLogging
present, Charting.Enable truthy) it computes the list of successfully
generated chart file names; otherwise it declines (returns none).
Stale-chart deletion only touches artifact files. -/
def chartGuardNames (env : LoadEnv) (idx : Nat) (d : Obj) :
    Except PyExc (Option (List String)) :=
  if !env.staticOk then .ok none
  else
    match tplGet d "history" with
    | .error e => .error e
    | .ok historyRaw =>
        match orEmptyList historyRaw with
        | .error e => .error e
        | .ok history =>
            if history.isEmpty then .ok none
            else
              match lookupObj d "TempProbeLogging" with
              | none => .ok none
              | some _ =>
                  match chartingGet d "Enable" with
                  | .error e => .error e
                  | .ok en =>
                      if !truthy en then .ok none
                      else
                        match chartingGet d "Charts" with
                        | .error e => .error e
                        | .ok chartsRaw =>
                            match orEmptyList chartsRaw with
                            | .error e => .error e
                            | .ok cfgs => chartNames env (stateNameOf d idx) cfgs 0 |>.map some

/-- The update _generate_state_data_charts applies to the state item: no
change when the guard declines, otherwise TempProbeCharts is set to the
successfully generated chart file names. -/
def generate_state_data_charts (env : LoadEnv) (idx : Nat) (d : Obj) : Except PyExc Obj :=
  match chartGuardNames env idx d with
  | .error e => .error e
  | .ok none => .ok d
  | .ok (some ns) => .ok (setKey d "TempProbeCharts" (.arr (ns.map .str)))

def annotateBase (env : LoadEnv) (doc : Obj) (desc : String) (save0 : JVal) : Obj :=
  setKey
    (setKey doc "LocalLastSaveTime"
      (astimezoneIfDt env (if isNull save0 then JVal.pydt env.now else save0)))
    "DeviceDescription" (.str desc)

/-- Lines 808-856 continued: the full per-document annotation.  Sets the
three cache annotations and, for TempProbes, runs chart generation which
may additionally set TempProbeCharts.  The class-level latest-save-time
bookkeeping touches no document key. -/
def processFile (env : LoadEnv) (idx : Nat) (doc : Obj) : Except PyExc Obj :=
  match computeDescSave doc with
  | .error e => .error e
  | .ok (desc, save0) =>
      match deviceNameOrDefault (annotateBase env doc desc save0) idx with
      | .error e => .error e
      | .ok nm =>
          match lookupObj doc "StateFileType" with
          | some (.str "TempProbes") =>
              generate_state_data_charts env idx
                (setKey (annotateBase env doc desc save0) "StateURLName"
                  (.str (url_encode_device_name nm)))
          | _ =>
              .ok (setKey (annotateBase env doc desc save0) "StateURLName"
                (.str (url_encode_device_name nm)))

-- ========== Directory reload (helper.py lines 782-869) ===================

/-- The two exception classes the per-file try/except of
_load_state_files_internal (line 861) catches and logs. -/
def loadCaught (e : PyExc) : Bool :=
  e = .osError || e = .jsonDecodeError

/-- Processing of one directory entry of the reload loop: hidden files are
skipped; a read returning None (empty/unreadable) is skipped with a
warning; OSError / JSONDecodeError is logged via report_fatal_error and the
file is skipped; a decoded non-dict document fails the assert on line 811
(AssertionError, uncaught); otherwise the document is annotated. -/
def loadOne (env : LoadEnv) (idx : Nat) (name : String) (r : ReadResult) :
    Except PyExc (Option Obj) :=
  if strStartsWith name "." then .ok none
  else
    match r with
    | .error e => if loadCaught e then .ok none else .error e
    | .empty => .ok none
    | .okVal (.obj o) =>
        (match processFile env idx o with
         | .ok item => .ok (some item)
         | .error e => if loadCaught e then .ok none else .error e)
    | .okVal _ => .error .assertionError

/-- Insert one directory entry into a name-sorted listing (models the Python
sorted builtin over file names). -/
def insertSorted (x : String × ReadResult) :
    List (String × ReadResult) → List (String × ReadResult)
  | [] => [x]
  | y :: ys => if strLe x.1 y.1 then x :: y :: ys else y :: insertSorted x ys

/-- Line 790: json_files = sorted(name for name in dir if name ends with
".json"). -/
def sortedJsonFiles (files : List (String × ReadResult)) : List (String × ReadResult) :=
  (files.filter (fun f => strEndsWith f.1 ".json")).foldr insertSorted []

/-- The enumerated reload loop over directory entries, accumulating the new
collection; an uncaught per-file exception aborts the whole reload. -/
def loadFiles (env : LoadEnv) : List (Nat × String × ReadResult) → Except PyExc (List Obj)
  | [] => .ok []
  | (i, n, r) :: rest =>
      match loadOne env i n r with
      | .error e => .error e
      | .ok none => loadFiles env rest
      | .ok (some item) =>
          match loadFiles env rest with
          | .error e => .error e
          | .ok l => .ok (item :: l)

/-- Model of _load_state_files_internal: sort the .json directory entries by name,
process each in order, and publish the resulting collection (the atomic
swap of self.state_items and the class-level cache). -/
def load_state_files_internal (env : LoadEnv) (files : List (String × ReadResult)) :
    Except PyExc (List Obj) :=
  loadFiles env (sortedJsonFiles files).enum

-- ========== Change detection (helper.py lines 334-366) ===================

/-- A directory snapshot: file name and modification time (all entries are
regular files). -/
abbrev DirSnapshot := List (String × Nat)

/-- The loop of check_for_state_file_changes over the .json files:
accumulates the file-name concatenation (hidden names included, since the
concatenation happens before the hidden-file check on line 351), and for
non-hidden files compares the modification time against the progressively
updated last_state_check (Python falsiness: a missing or zero timestamp
counts as unset). -/
def scanLoop : List (String × Nat) → String → Bool → Option Nat → String × Bool × Option Nat
  | [], concat, ret, lc => (concat, ret, lc)
  | f :: rest, concat, ret, lc =>
      let concat' := concat ++ f.1
      if strStartsWith f.1 "." then scanLoop rest concat' ret lc
      else
        let unsetOrNewer :=
          match lc with
          | none => true
          | some t => t = 0 || t < f.2
        if unsetOrNewer then scanLoop rest concat' true (some f.2)
        else scanLoop rest concat' ret lc

/-- check_for_state_file_changes: scans the state directory (one directory
listing plus a stat per file), returns whether a reload is needed together
with the updated last_state_check and last_state_filename_hash. -/
def check_for_state_file_changes (dir : DirSnapshot) (dirExists : Bool)
    (lc : Option Nat) (hash : Option String) : Bool × Option Nat × Option String :=
  if !dirExists then (false, lc, hash)
  else
    let jsonFiles := dir.filter (fun f => strEndsWith f.1 ".json")
    let (concat, ret, lc') := scanLoop jsonFiles "" false lc
    if hash = some concat then (ret, lc', hash) else (true, lc', some concat)

/-- The file-name component of the change fingerprint: concatenation of all
.json file names in directory order, hidden names included. -/
def concatJsonNames (dir : DirSnapshot) : String :=
  (dir.filter (fun f => strEndsWith f.1 ".json")).foldl (fun acc f => acc ++ f.1) ""

-- ========== housekeeping (helper.py lines 368-405) =======================

/-- The process-local coordinator state relevant to housekeeping: the two
fingerprint fields, an identity token for the state_items list object
(changed exactly when the Python attribute is rebound to a fresh list), and
counters for directory scans and file parses performed. -/
structure HKState where
  lc : Option Nat
  hash : Option String
  itemsId : Nat
  scans : Nat
  parses : Nat

/-- housekeeping: check for config changes (external SCConfigManager; does
not touch the state cache), then scan for state-file changes, reloading via
load_state_files when a change is signalled.  load_state_files always
rebinds self.state_items to a fresh list object (either a cache copy or a
freshly parsed collection; the parse counter models the full-reload path).
The hourly log-trim touches no cache state. -/
def housekeeping (dir : DirSnapshot) (dirExists : Bool) (st : HKState) : HKState :=
  let (changed, lc', hash') := check_for_state_file_changes dir dirExists st.lc st.hash
  let st' : HKState :=
    { st with lc := lc', hash := hash',
              scans := st.scans + (if dirExists then 1 else 0) }
  if changed then
    { st' with itemsId := st'.itemsId + 1,
               parses := st'.parses +
                 (dir.filter (fun f => strEndsWith f.1 ".json" && !strStartsWith f.1 ".")).length }
  else st'

-- ========== Nested state accessors =======================================

/-- A Python subscript: an integer index or a string key. -/
inductive PyKey where
  | int (i : Int)
  | str (s : String)

/-- Python list subscripting with negative-index handling: one length is
added to a negative index; anything still out of range raises IndexError. -/
def pyListIndex (xs : List JVal) (i : Int) : Except PyExc JVal :=
  let j := if i < 0 then i + xs.length else i
  if j < 0 then .error .indexError
  else
    match xs.get? j.toNat with
    | some v => .ok v
    | none => .error .indexError

/-- One Python subscript value[key] over the modelled values: dicts raise
KeyError on a missing or integer key, lists and strings raise IndexError
out of range and TypeError on string keys, and non-subscriptable values
raise TypeError. -/
def getItem : JVal → PyKey → Except PyExc JVal
  | .obj fs, .str k =>
      (match lookupObj fs k with
       | some v => .ok v
       | none => .error .keyError)
  | .obj _, .int _ => .error .keyError
  | .arr xs, .int i => pyListIndex xs i
  | .arr _, .str _ => .error .typeError
  | .str s, .int i => pyListIndex (s.toList.map (fun c => JVal.str (String.singleton c))) i
  | .str _, .str _ => .error .typeError
  | _, _ => .error .typeError

/-- The key-traversal loop of get_state (lines 567-570). -/
def traverseKeys : JVal → List PyKey → Except PyExc JVal
  | v, [] => .ok v
  | v, k :: ks =>
      match getItem v k with
      | .ok v' => traverseKeys v' ks
      | .error e => .error e

/-- get_state(*keys, default=None) on the state_items collection: traverses
the nested keys, converts KeyError and TypeError (and only those) into the
default, and substitutes the default for a found None when a non-None
default was supplied. -/
def get_state (stateItems : JVal) (keys : List PyKey) (default : JVal) :
    Except PyExc JVal :=
  match traverseKeys stateItems keys with
  | .error .keyError => .ok default
  | .error .typeError => .ok default
  | .error e => .error e
  | .ok v => .ok (if isNull v && !(isNull default) then default else v)

/-- Model of __getitem__ of the older src/helper.py variant (lines 310-325): a single
subscript with KeyError and TypeError (and only those) converted into the
default. -/
def getitem_legacy (stateItems : JVal) (key : PyKey) (default : JVal) :
    Except PyExc JVal :=
  match getItem stateItems key with
  | .error .keyError => .ok default
  | .error .typeError => .ok default
  | .error e => .error e
  | .ok v => .ok v

-- ========== Background worker (helper.py lines 871-927) ==================

/-- The observable inputs of one tick of _state_loader_worker: the outcome
of check_for_state_file_changes (which may itself raise, e.g. OSError from
a stat), whether the cache-metadata grace window says another process
loaded within the last 10 seconds, whether the non-blocking reload lock was
acquired (BlockingIOError is caught and waited out), and the directory read
results for the reload. -/
structure WorkerTick where
  checkOutcome : Except PyExc Bool
  graceSkip : Bool
  lockAcquired : Bool
  files : List (String × ReadResult)

/-- The exception classes the outer try/except of the worker loop (line 923)
catches and logs: OSError, json.JSONDecodeError, RuntimeError, ValueError,
TypeError. -/
def workerCaught (e : PyExc) : Bool :=
  match e with
  | .osError | .jsonDecodeError | .runtimeError | .valueError | .typeError => true
  | _ => false

/-- The exception (if any) escaping the body of one worker iteration. -/
def workerIterationExc (env : LoadEnv) (t : WorkerTick) : Option PyExc :=
  match t.checkOutcome with
  | .error e => some e
  | .ok false => none
  | .ok true =>
      if t.graceSkip then none
      else if !t.lockAcquired then none
      else
        match load_state_files_internal env t.files with
        | .ok _ => none
        | .error e => some e

/-- How a worker run ends: the stop event is observed, or an uncaught
exception kills the thread. -/
inductive WorkerEnd where
  | stopped
  | crashed (e : PyExc)
deriving DecidableEq

/-- Model of _state_loader_worker over a finite schedule of ticks (the stop event is
set after the last tick): the exception of each iteration is either in the
caught set (logged, loop continues on the next tick) or kills the loop. -/
def state_loader_worker (env : LoadEnv) : List WorkerTick → WorkerEnd
  | [] => .stopped
  | t :: rest =>
      match workerIterationExc env t with
      | none => state_loader_worker env rest
      | some e => if workerCaught e then state_loader_worker env rest else .crashed e

-- ========== Ingestion endpoint (views.py lines 879-983) ==================

/-- The Python types the required-keys validation of submit_data checks
with isinstance. -/
inductive PyType where
  | str
  | int
  | dict
  | list

/-- isinstance against the checked types; the Python bool type is a subclass of
int. -/
def typeMatches : JVal → PyType → Bool
  | .str _, .str => true
  | .int _, .int => true
  | .bool _, .int => true
  | .obj _, .dict => true
  | .arr _, .list => true
  | _, _ => false

/-- The required-keys-by-type table of submit_data, in source order. -/
def requiredKeysFor (stateType : String) : List (String × PyType) :=
  if stateType = "PowerController" then
    [("SaveTime", .str), ("SchemaVersion", .int), ("DeviceName", .str),
     ("Output", .dict), ("Scheduler", .dict)]
  else if stateType = "LightingControl" then
    [("LastStateSaveTime", .str), ("SchemaVersion", .int), ("DeviceName", .str),
     ("RandomOffsets", .dict), ("SwitchStates", .list)]
  else if stateType = "TempProbes" then
    [("SaveTime", .str), ("SchemaVersion", .int), ("DeviceName", .str),
     ("TempProbeLogging", .dict)]
  else
    [("SaveTime", .str), ("SchemaVersion", .int), ("DeviceName", .str),
     ("Summary", .dict), ("Meters", .list)]

/-- The validation loop: every required key must be present with the
required isinstance type (the first failure produces the 400 response). -/
def checkRequiredKeys (d : Obj) : List (String × PyType) → Bool
  | [] => true
  | (k, t) :: rest =>
      match lookupObj d k with
      | none => false
      | some v => typeMatches v t && checkRequiredKeys d rest

/-- data.get("StateFileType", "PowerController"). -/
def stateTypeOf (d : Obj) : JVal :=
  (lookupObj d "StateFileType").getD (.str "PowerController")

/-- The recognized state file types. -/
def validStateTypes : List String :=
  ["PowerController", "LightingControl", "TempProbes", "OutputMetering"]

/-- An HTTP request to /api/submit as submit_data observes it: the JSON
content-type flag, the configured and supplied access keys, the optional
gzip encoding with its decompress-and-parse outcome, and the parsed body
otherwise. -/
structure SubmitRequest where
  isJson : Bool
  configAccessKey : Option String
  urlKey : Option String
  gzipEncoded : Bool
  gzipResult : Except PyExc JVal
  body : JVal

/-- The document submit_data validates: the gzip-decompressed parse when
Content-Encoding is gzip, the request JSON body otherwise. -/
def effectiveData (r : SubmitRequest) : Except PyExc JVal :=
  if r.gzipEncoded then r.gzipResult else .ok r.body

/-- submit_data: returns the HTTP status and the file written to the store
(name and document), none when nothing is persisted.  Rejections: 400 for
a non-JSON content type, 403 for a wrong access key, 400 for a failed gzip
decompress/parse, 400 for a non-object document, an unrecognized
StateFileType, or a missing/mistyped required key.  On success the state is
saved to DeviceName.json via save_state and safe write, housekeeping is
triggered, and 200 is returned. -/
def submit_data (r : SubmitRequest) : Nat × Option (String × Obj) :=
  if !r.isJson then (400, none)
  else if (match r.configAccessKey with
           | some ck => !(r.urlKey = some ck)
           | none => false) then (403, none)
  else
    match effectiveData r with
    | .error _ => (400, none)
    | .ok data =>
        match data with
        | .obj d =>
            (match asString (stateTypeOf d) with
             | some s =>
                 if s ∈ validStateTypes then
                   if checkRequiredKeys d (requiredKeysFor s) then
                     (match lookupObj d "DeviceName" with
                      | some (.str nm) => (200, some (nm ++ ".json", d))
                      | _ => (200, some ("unknown.json", d)))
                   else (400, none)
                 else (400, none)
             | none => (400, none))
        | _ => (400, none)

-- ===================== Shared lemmas =====================================

theorem lookupObj_setKey_ne (d : Obj) (k k' : String) (v : JVal) (h : k' ≠ k) :
    lookupObj (setKey d k v) k' = lookupObj d k' := by
  have hne : ¬ k = k' := fun hh => h hh.symm
  induction d with
  | nil => simp [setKey, lookupObj, hne]
  | cons hd tl ih =>
      obtain ⟨k0, v0⟩ := hd
      by_cases hk : k0 = k
      · subst hk
        simp [setKey, lookupObj, hne]
      · by_cases hk' : k0 = k'
        · simp [setKey, hk, lookupObj, hk', h]
        · simp [setKey, hk, lookupObj, hk', ih]

theorem lookupObj_setKey_self (d : Obj) (k : String) (v : JVal) :
    lookupObj (setKey d k v) k = some v := by
  induction d with
  | nil => simp [setKey, lookupObj]
  | cons hd tl ih =>
      obtain ⟨k0, v0⟩ := hd
      by_cases hk : k0 = k
      · subst hk
        simp [setKey, lookupObj]
      · simp [setKey, hk, lookupObj, ih]

-- ===================== C3: _safe_read_json ===============================

/-- A failed read attempt is one of the two retried outcomes. -/
theorem rIsFail_elim (a : RAttempt) (h : rIsFail a = true) :
    a = .osFail ∨ a = .parseFail := by
  cases a <;> simp [rIsFail] at h ⊢

/-- C3: _safe_read_json returns None for a zero-length file (logging a
warning), returns the parsed document otherwise, retries OS and JSON-parse
errors up to the fixed bound of 3 attempts with a short fixed backoff, and
re-raises the error after exhausting the retries. -/
theorem safe_read_json_spec (att : Nat → RAttempt) :
    (att 0 = .emptyFile → safe_read_json att 3 = .ok none)
    ∧ (∀ (v : JVal) (j : Nat), j < 3 → att j = .okDoc v →
        (∀ i, i < j → rIsFail (att i) = true) →
        safe_read_json att 3 = .ok (some v))
    ∧ ((∀ i, i < 3 → rIsFail (att i) = true) →
        safe_read_json att 3 = .error (rExc (att 2))) := by
  refine ⟨?_, ?_, ?_⟩
  · intro h
    simp [safe_read_json, safeReadGo, h]
  · intro v j hj hatt hfails
    have hj3 : j = 0 ∨ j = 1 ∨ j = 2 := by omega
    rcases hj3 with rfl | rfl | rfl
    · simp [safe_read_json, safeReadGo, hatt]
    · rcases rIsFail_elim _ (hfails 0 (by omega)) with h0 | h0 <;>
        simp [safe_read_json, safeReadGo, h0, hatt]
    · rcases rIsFail_elim _ (hfails 0 (by omega)) with h0 | h0 <;>
        rcases rIsFail_elim _ (hfails 1 (by omega)) with h1 | h1 <;>
          simp [safe_read_json, safeReadGo, h0, h1, hatt]
  · intro hfails
    rcases rIsFail_elim _ (hfails 0 (by omega)) with h0 | h0 <;>
      rcases rIsFail_elim _ (hfails 1 (by omega)) with h1 | h1 <;>
        rcases rIsFail_elim _ (hfails 2 (by omega)) with h2 | h2 <;>
          simp [safe_read_json, safeReadGo, h0, h1, h2, rExc]

/-- Attempt schedule exercising C3: one transient OS error, then a parsed
document. -/
def readAttC : Nat → RAttempt :=
  fun i => if i = 0 then .osFail else .okDoc (.int 7)

theorem safe_read_json_spec_witness :
    safe_read_json readAttC 3 = .ok (some (.int 7)) :=
  (safe_read_json_spec readAttC).2.1 (.int 7) 1 (by decide) rfl (by decide)

-- ===================== C2: _safe_write_json ==============================

/-- A failed write attempt is one of the two OSError outcomes. -/
theorem wattempt_fail_elim (a : WAttempt) (h : a ≠ .ok) :
    a = .tempWriteFail ∨ a = .replaceFail := by
  cases a <;> simp_all

/-- Invariant of the write retry loop: the destination only ever holds its
starting content or the complete new document, both along the trace and at
the end. -/
theorem safeWriteGo_dest (data : JVal) (att : Nat → WAttempt) :
    ∀ (r idx : Nat) (fs : WriteFS),
      ((safeWriteGo data att idx r fs).fs.dest = fs.dest
        ∨ (safeWriteGo data att idx r fs).fs.dest = .complete data)
      ∧ (∀ c ∈ (safeWriteGo data att idx r fs).destTrace,
          c = fs.dest ∨ c = .complete data) := by
  intro r
  induction r with
  | zero => intro idx fs; simp [safeWriteGo]
  | succ r ih =>
      intro idx fs
      cases hatt : att idx with
      | ok => simp [safeWriteGo, hatt]
      | tempWriteFail =>
          by_cases hr : r = 0
          · subst hr; simp [safeWriteGo, hatt]
          · have h := ih (idx + 1) ⟨fs.dest, some (.torn data)⟩
            simp only [safeWriteGo, hatt, if_neg hr]
            refine ⟨h.1, ?_⟩
            intro c hc
            rcases List.mem_cons.mp hc with rfl | hc
            · exact Or.inl rfl
            · exact h.2 c hc
      | replaceFail =>
          by_cases hr : r = 0
          · subst hr; simp [safeWriteGo, hatt]
          · have h := ih (idx + 1) ⟨fs.dest, some (.complete data)⟩
            simp only [safeWriteGo, hatt, if_neg hr]
            refine ⟨h.1, ?_⟩
            intro c hc
            rcases List.mem_cons.mp hc with rfl | hc
            · exact Or.inl rfl
            · exact h.2 c hc

/-- C2: _safe_write_json writes to the sibling temp file and atomically
renames it over the destination, so a reader of the destination only ever
observes the old or the new complete document and never a torn one; on
OSError it retries up to the fixed bound of 3 attempts, raising after
exhaustion with the destination untouched, and it returns True on
success. -/
theorem safe_write_json_spec (att : Nat → WAttempt) (old data : JVal) :
    (∀ c ∈ (safe_write_json data old att 3).destTrace,
        c = .complete old ∨ c = .complete data)
    ∧ ((∀ i, i < 3 → att i ≠ .ok) →
        (safe_write_json data old att 3).result = .error .osError
        ∧ (safe_write_json data old att 3).attemptsUsed = 3
        ∧ (safe_write_json data old att 3).fs.dest = .complete old)
    ∧ (∀ j, j < 3 → att j = .ok → (∀ i, i < j → att i ≠ .ok) →
        (safe_write_json data old att 3).result = .ok true
        ∧ (safe_write_json data old att 3).fs.dest = .complete data) := by
  refine ⟨?_, ?_, ?_⟩
  · intro c hc
    exact (safeWriteGo_dest data att 3 0 ⟨.complete old, none⟩).2 c hc
  · intro hfails
    rcases wattempt_fail_elim _ (hfails 0 (by omega)) with h0 | h0 <;>
      rcases wattempt_fail_elim _ (hfails 1 (by omega)) with h1 | h1 <;>
        rcases wattempt_fail_elim _ (hfails 2 (by omega)) with h2 | h2 <;>
          simp [safe_write_json, safeWriteGo, h0, h1, h2]
  · intro j hj hok hfails
    have hj3 : j = 0 ∨ j = 1 ∨ j = 2 := by omega
    rcases hj3 with rfl | rfl | rfl
    · simp [safe_write_json, safeWriteGo, hok]
    · rcases wattempt_fail_elim _ (hfails 0 (by omega)) with h0 | h0 <;>
        simp [safe_write_json, safeWriteGo, h0, hok]
    · rcases wattempt_fail_elim _ (hfails 0 (by omega)) with h0 | h0 <;>
        rcases wattempt_fail_elim _ (hfails 1 (by omega)) with h1 | h1 <;>
          simp [safe_write_json, safeWriteGo, h0, h1, hok]

/-- Attempt schedule exercising C2: one failed temp write, then a
successful write and rename. -/
def writeAttC : Nat → WAttempt :=
  fun i => if i = 0 then .tempWriteFail else .ok

theorem safe_write_json_spec_witness :
    (safe_write_json (.int 2) (.int 1) writeAttC 3).result = .ok true
    ∧ (safe_write_json (.int 2) (.int 1) writeAttC 3).fs.dest = .complete (.int 2) :=
  (safe_write_json_spec writeAttC (.int 1) (.int 2)).2.2 1 (by decide) rfl (by decide)

-- ===================== C10: IndexError is not converted ==================

/-- A list subscript outside the valid Python range (allowing negative
indices) raises IndexError. -/
theorem pyListIndex_out_of_range (xs : List JVal) (i : Int)
    (h : (xs.length : Int) ≤ i ∨ i < -(xs.length : Int)) :
    pyListIndex xs i = .error .indexError := by
  unfold pyListIndex
  rcases h with h | h
  · have h0 : ¬ i < 0 := by omega
    have h2 : xs.length ≤ i.toNat := by omega
    have h3 : xs[i.toNat]? = none := by
      rw [← List.get?_eq_getElem?]
      exact List.get?_eq_none.mpr h2
    simp [h0, h3]
  · have h0 : i < 0 := by omega
    have h1 : i + (xs.length : Int) < 0 := by omega
    simp [h0, h1]

/-- C10: get_state converts only KeyError and TypeError into the supplied
default; an integer device index outside the bounds of the list-valued
state collection raises IndexError instead of returning the default, and
the same holds for the legacy __getitem__ helper. -/
theorem get_state_index_error (xs : List JVal) (i : Int) (rest : List PyKey)
    (d1 d2 : JVal)
    (h : (xs.length : Int) ≤ i ∨ i < -(xs.length : Int)) :
    get_state (.arr xs) (.int i :: rest) d1 = .error .indexError
    ∧ getitem_legacy (.arr xs) (.int i) d2 = .error .indexError := by
  have hpl := pyListIndex_out_of_range xs i h
  constructor
  · simp [get_state, traverseKeys, getItem, hpl]
  · simp [getitem_legacy, getItem, hpl]

theorem get_state_index_error_witness :
    get_state (.arr [.obj [("DeviceName", .str "Pump")]]) [.int 3, .str "DeviceName"]
        .null = .error .indexError
    ∧ getitem_legacy (.arr [.obj [("DeviceName", .str "Pump")]]) (.int 3)
        .null = .error .indexError :=
  get_state_index_error [.obj [("DeviceName", .str "Pump")]] 3 [.str "DeviceName"]
    .null .null (Or.inl (by decide))

-- ===================== C5: submit_data validation ========================

/-- A required key missing from the document fails the validation loop. -/
theorem checkRequiredKeys_missing (d : Obj) (k : String) :
    ∀ (L : List (String × PyType)), lookupObj d k = none → (∃ t, (k, t) ∈ L) →
      checkRequiredKeys d L = false := by
  intro L
  induction L with
  | nil =>
      intro _ hmem
      obtain ⟨t, ht⟩ := hmem
      exact absurd ht (List.not_mem_nil _)
  | cons hd tl ih =>
      intro hnone hmem
      obtain ⟨k0, t0⟩ := hd
      by_cases hk : k0 = k
      · subst hk
        simp [checkRequiredKeys, hnone]
      · obtain ⟨t, ht⟩ := hmem
        rcases List.mem_cons.mp ht with heq | htl
        · exact absurd (congrArg Prod.fst heq).symm hk
        · cases hv : lookupObj d k0 with
          | none => simp [checkRequiredKeys, hv]
          | some v =>
              simp [checkRequiredKeys, hv, ih hnone ⟨t, htl⟩]

/-- Any persisted submission went through the 200 branch, so its document
passed the required-keys-by-type validation. -/
theorem submit_persist_aux (r : SubmitRequest) (st : Nat)
    (out : Option (String × Obj)) (hsd : submit_data r = (st, out))
    (nm : String) (doc : Obj) (hout : out = some (nm, doc)) :
    st = 200 ∧ ∃ s, asString (stateTypeOf doc) = some s ∧ s ∈ validStateTypes
      ∧ checkRequiredKeys doc (requiredKeysFor s) = true := by
  subst hout
  unfold submit_data at hsd
  split at hsd
  · simp at hsd
  · split at hsd
    · simp at hsd
    · split at hsd
      · simp at hsd
      · split at hsd
        · rename_i d
          split at hsd
          · rename_i s hs
            split at hsd
            · rename_i hmem
              split at hsd
              · rename_i hchk
                split at hsd
                · simp only [Prod.mk.injEq, Option.some.injEq] at hsd
                  obtain ⟨h1, _, h3⟩ := hsd
                  subst h3
                  exact ⟨h1.symm, s, hs, hmem, hchk⟩
                · simp only [Prod.mk.injEq, Option.some.injEq] at hsd
                  obtain ⟨h1, _, h3⟩ := hsd
                  subst h3
                  exact ⟨h1.symm, s, hs, hmem, hchk⟩
              · simp at hsd
            · simp at hsd
          · simp at hsd
        · simp at hsd

/-- C5: submit_data rejects a non-JSON content type with a client error and
writes nothing; a document with StateFileType "PowerController" missing the
required key "Output" is rejected with a client error and nothing is
written; and every persisted document passed the required-keys-by-type
validation, with status 200. -/
theorem submit_data_validation (r : SubmitRequest) :
    (r.isJson = false → submit_data r = (400, none))
    ∧ (∀ d : Obj, effectiveData r = .ok (.obj d) →
        lookupObj d "StateFileType" = some (.str "PowerController") →
        lookupObj d "Output" = none →
        (submit_data r).2 = none ∧ 400 ≤ (submit_data r).1 ∧ (submit_data r).1 < 500)
    ∧ (∀ nm doc, (submit_data r).2 = some (nm, doc) →
        (submit_data r).1 = 200 ∧ ∃ s, asString (stateTypeOf doc) = some s
          ∧ s ∈ validStateTypes ∧ checkRequiredKeys doc (requiredKeysFor s) = true) := by
  refine ⟨?_, ?_, ?_⟩
  · intro h
    simp [submit_data, h]
  · intro d hd hsft hout
    have hfail : checkRequiredKeys d (requiredKeysFor "PowerController") = false :=
      checkRequiredKeys_missing d "Output" _ hout ⟨.dict, by simp [requiredKeysFor]⟩
    have hst : stateTypeOf d = .str "PowerController" := by
      simp [stateTypeOf, hsft]
    unfold submit_data
    by_cases hj : r.isJson
    · simp only [hj, Bool.not_true, Bool.false_eq_true, if_false]
      by_cases hkey : (match r.configAccessKey with
        | some ck => !(r.urlKey = some ck)
        | none => false) = true
      · simp [hkey]
      · simp only [hkey, if_false, hd]
        simp [hst, asString, validStateTypes, hfail]
    · simp [hj]
  · intro nm doc h
    exact submit_persist_aux r (submit_data r).1 (submit_data r).2 rfl nm doc h

/-- A valid PowerController submission. -/
def submitDocC : Obj :=
  [("StateFileType", .str "PowerController"), ("SaveTime", .str "2024-01-01T00:00:00"),
   ("SchemaVersion", .int 1), ("DeviceName", .str "Pump"),
   ("Output", .obj [("IsOn", .bool true)]), ("Scheduler", .obj [])]

/-- The same submission with the required key "Output" removed. -/
def submitDocMissingOutputC : Obj :=
  [("StateFileType", .str "PowerController"), ("SaveTime", .str "2024-01-01T00:00:00"),
   ("SchemaVersion", .int 1), ("DeviceName", .str "Pump"), ("Scheduler", .obj [])]

/-- A request carrying the given body, with no access key configured. -/
def submitReqC (body : JVal) : SubmitRequest :=
  ⟨true, none, none, false, .ok .null, body⟩

theorem submit_data_validation_witness :
    (submit_data (submitReqC (.obj submitDocMissingOutputC))).2 = none
    ∧ 400 ≤ (submit_data (submitReqC (.obj submitDocMissingOutputC))).1
    ∧ (submit_data (submitReqC (.obj submitDocMissingOutputC))).1 < 500 :=
  (submit_data_validation (submitReqC (.obj submitDocMissingOutputC))).2.1
    submitDocMissingOutputC rfl rfl rfl

-- ===================== C4: per-file errors are skipped ===================

/-- When no directory entry raises an uncaught exception, the reload loop
completes and returns exactly the per-entry results, dropping the skipped
entries. -/
theorem loadFiles_ok_of_all (env : LoadEnv) :
    ∀ ps : List (Nat × String × ReadResult),
      (∀ p ∈ ps, (loadOne env p.1 p.2.1 p.2.2).isOk = true) →
      loadFiles env ps =
        .ok (ps.filterMap (fun p => (loadOne env p.1 p.2.1 p.2.2).toOption.join)) := by
  intro ps
  induction ps with
  | nil => intro _; rfl
  | cons p rest ih =>
      intro h
      have hp := h p (List.mem_cons_self p rest)
      have hrest := ih (fun q hq => h q (List.mem_cons_of_mem p hq))
      cases e : loadOne env p.1 p.2.1 p.2.2 with
      | error ex => rw [e] at hp; simp [Except.isOk, Except.toBool] at hp
      | ok o =>
          cases o with
          | none =>
              obtain ⟨i, n, r⟩ := p
              simp only [loadFiles, e, hrest, List.filterMap_cons]
              simp [e, Except.toOption]
          | some item =>
              obtain ⟨i, n, r⟩ := p
              simp only [loadFiles, e, hrest, List.filterMap_cons]
              simp [e, Except.toOption]

/-- C4: an I/O or JSON-parse error on an individual device file during a
reload is logged and that file is skipped: the entry contributes nothing to
the collection, every successfully read file still contributes its
annotated item, and the reload completes and publishes the resulting
collection. -/
theorem load_skips_failed_files (env : LoadEnv) (files : List (String × ReadResult))
    (h : ∀ p ∈ (sortedJsonFiles files).enum, (loadOne env p.1 p.2.1 p.2.2).isOk = true) :
    load_state_files_internal env files =
      .ok ((sortedJsonFiles files).enum.filterMap
        (fun p => (loadOne env p.1 p.2.1 p.2.2).toOption.join))
    ∧ (∀ i n, strStartsWith n "." = false →
        loadOne env i n (.error .osError) = .ok none
        ∧ loadOne env i n (.error .jsonDecodeError) = .ok none)
    ∧ (∀ i n o item, strStartsWith n "." = false → processFile env i o = .ok item →
        loadOne env i n (.okVal (.obj o)) = .ok (some item)) := by
  refine ⟨loadFiles_ok_of_all env _ h, ?_, ?_⟩
  · intro i n hn
    constructor <;> simp [loadOne, hn, loadCaught]
  · intro i n o item hn hok
    simp [loadOne, hn, hok]

/-- A concrete load environment: identity astimezone, now-token 0, static
artifact directory unresolved, no chart generation succeeding. -/
def envC : LoadEnv := ⟨fun t => t, 0, false, fun _ => false⟩

/-- A directory with one unreadable file and one valid TempProbes file. -/
def filesC4 : List (String × ReadResult) :=
  [("bad.json", .error .osError),
   ("good.json", .okVal (.obj [("StateFileType", .str "TempProbes"), ("SaveTime", .null)]))]

/-- The annotated item loaded from good.json (enumeration index 1, hence
the StateURLName fallback Device2). -/
def goodItemC4 : Obj :=
  [("StateFileType", .str "TempProbes"), ("SaveTime", .null),
   ("LocalLastSaveTime", .pydt 0), ("DeviceDescription", .str "Temperature Probes"),
   ("StateURLName", .str "Device2")]

theorem load_skips_failed_files_witness :
    load_state_files_internal envC filesC4 = .ok [goodItemC4]
    ∧ loadOne envC 0 "bad.json" (.error .osError) = .ok none := by
  have h := load_skips_failed_files envC filesC4 (by decide)
  exact ⟨h.1.trans rfl, (h.2.1 0 "bad.json" (by decide)).1⟩

-- ===================== C1: load-then-read round trip =====================

/-- Chart generation touches no document key other than TempProbeCharts. -/
theorem generate_state_data_charts_lookup (env : LoadEnv) (idx : Nat) (d d' : Obj)
    (h : generate_state_data_charts env idx d = .ok d') (k : String)
    (hk : k ≠ "TempProbeCharts") : lookupObj d' k = lookupObj d k := by
  unfold generate_state_data_charts at h
  cases hg : chartGuardNames env idx d with
  | error e =>
      rw [hg] at h
      exact Except.noConfusion h
  | ok o =>
      rw [hg] at h
      cases o with
      | none =>
          injection h with h
          subst h
          rfl
      | some ns =>
          injection h with h
          subst h
          exact lookupObj_setKey_ne d "TempProbeCharts" k _ hk

/-- The cache-assigned annotation keys of a loaded state item. -/
def cacheAnnotationKeys : List String :=
  ["LocalLastSaveTime", "DeviceDescription", "StateURLName", "TempProbeCharts"]

/-- Does the document carry one of the recognized StateFileType values? -/
def recognizedStateFileType (doc : Obj) : Bool :=
  match lookupObj doc "StateFileType" with
  | some (.str s) => validStateTypes.contains s
  | _ => false

/-- The base annotation step touches only LocalLastSaveTime and
DeviceDescription. -/
theorem annotateBase_lookup (env : LoadEnv) (doc : Obj) (desc : String)
    (save0 : JVal) (k : String) (hk1 : k ≠ "LocalLastSaveTime")
    (hk2 : k ≠ "DeviceDescription") :
    lookupObj (annotateBase env doc desc save0) k = lookupObj doc k := by
  unfold annotateBase
  rw [lookupObj_setKey_ne _ "DeviceDescription" k _ hk2,
      lookupObj_setKey_ne _ "LocalLastSaveTime" k _ hk1]

/-- Annotating a document preserves every key outside the cache-assigned
annotation set. -/
theorem processFile_lookup (env : LoadEnv) (idx : Nat) (doc res : Obj)
    (hok : processFile env idx doc = .ok res) (k : String)
    (hk : k ∉ cacheAnnotationKeys) : lookupObj res k = lookupObj doc k := by
  have hk1 : k ≠ "LocalLastSaveTime" := by intro h; exact hk (by simp [cacheAnnotationKeys, h])
  have hk2 : k ≠ "DeviceDescription" := by intro h; exact hk (by simp [cacheAnnotationKeys, h])
  have hk3 : k ≠ "StateURLName" := by intro h; exact hk (by simp [cacheAnnotationKeys, h])
  have hk4 : k ≠ "TempProbeCharts" := by intro h; exact hk (by simp [cacheAnnotationKeys, h])
  unfold processFile at hok
  cases hcd : computeDescSave doc with
  | error e =>
      simp only [hcd] at hok
      exact Except.noConfusion hok
  | ok p =>
      obtain ⟨desc, save0⟩ := p
      simp only [hcd] at hok
      cases hdn : deviceNameOrDefault (annotateBase env doc desc save0) idx with
      | error e =>
          simp only [hdn] at hok
          exact Except.noConfusion hok
      | ok nm =>
          simp only [hdn] at hok
          split at hok
          · rw [generate_state_data_charts_lookup env idx _ res hok k hk4,
                lookupObj_setKey_ne _ "StateURLName" k _ hk3]
            exact annotateBase_lookup env doc desc save0 k hk1 hk2
          · injection hok with hok
            subst hok
            rw [lookupObj_setKey_ne _ "StateURLName" k _ hk3]
            exact annotateBase_lookup env doc desc save0 k hk1 hk2

/-- C1: loading a valid device document with a recognized StateFileType and
reading it back through get_state yields the original content for every key
the cache does not synthesize; only the cache-assigned annotations differ
from the decoded on-disk payload. -/
theorem get_state_roundtrip (env : LoadEnv) (idx : Nat) (doc res : Obj) (k : String)
    (_hrec : recognizedStateFileType doc = true)
    (hok : processFile env idx doc = .ok res)
    (hk : k ∉ cacheAnnotationKeys) :
    lookupObj res k = lookupObj doc k
    ∧ ∀ (pre post : List JVal) (v : JVal), lookupObj doc k = some v →
        get_state (.arr (pre ++ JVal.obj res :: post)) [.int pre.length, .str k] .null
          = .ok v := by
  have hpres := processFile_lookup env idx doc res hok k hk
  refine ⟨hpres, ?_⟩
  intro pre post v hv
  have hidx : pyListIndex (pre ++ JVal.obj res :: post) (pre.length : Int)
      = .ok (JVal.obj res) := by
    have h0 : ¬ ((pre.length : Int) < 0) := by omega
    have ht : ((pre.length : Int)).toNat = pre.length := by omega
    have h2 : (pre ++ JVal.obj res :: post).get? pre.length
        = some (JVal.obj res) := by
      rw [List.get?_append_right (le_refl pre.length)]
      simp
    unfold pyListIndex
    simp only [h0, if_false, ite_false, ht, h2]
  have hlook : lookupObj res k = some v := hpres.trans hv
  simp [get_state, traverseKeys, getItem, hidx, hlook, isNull]

/-- The decoded pump.json document of the C1 scenario. -/
def docC1 : Obj :=
  [("StateFileType", .str "PowerController"), ("DeviceName", .str "Pump"),
   ("SaveTime", .pydt 5), ("Output", .obj [("IsOn", .bool true)]),
   ("Scheduler", .obj [])]

/-- Its annotated in-cache form under envC. -/
def resC1 : Obj :=
  [("StateFileType", .str "PowerController"), ("DeviceName", .str "Pump"),
   ("SaveTime", .pydt 5), ("Output", .obj [("IsOn", .bool true)]),
   ("Scheduler", .obj []), ("LocalLastSaveTime", .pydt 5),
   ("DeviceDescription", .str "Power Controller"), ("StateURLName", .str "Pump")]

theorem get_state_roundtrip_witness :
    lookupObj resC1 "Output" = lookupObj docC1 "Output"
    ∧ get_state (.arr [JVal.obj resC1]) [.int 0, .str "Output"] .null
        = .ok (.obj [("IsOn", .bool true)]) := by
  have h := get_state_roundtrip envC 0 docC1 resC1 "Output" (by decide) rfl (by decide)
  exact ⟨h.1, h.2 [] [] (.obj [("IsOn", .bool true)]) rfl⟩

-- ===================== C6: repeated housekeeping =========================

/-- The concatenation component of the scan loop is the fold of the file
names over the accumulator. -/
theorem scanLoop_concat (fs : List (String × Nat)) :
    ∀ (c : String) (r : Bool) (lc : Option Nat),
      (scanLoop fs c r lc).1 = fs.foldl (fun a f => a ++ f.1) c := by
  induction fs with
  | nil => intro c r lc; rfl
  | cons f rest ih =>
      intro c r lc
      by_cases hh : strStartsWith f.1 "."
      · simp [scanLoop, hh, ih]
      · by_cases hu : (match lc with
          | none => true
          | some t => t = 0 || t < f.2) = true
        · simp [scanLoop, hh, hu, ih]
        · simp [scanLoop, hh, hu, ih]

/-- With a non-zero last check at least as new as every non-hidden file,
the scan loop changes nothing and reports no modification. -/
theorem scanLoop_warm (fs : List (String × Nat)) :
    ∀ (c : String) (r : Bool) (t : Nat), t ≠ 0 →
      (∀ f ∈ fs, strStartsWith f.1 "." = false → f.2 ≤ t) →
      scanLoop fs c r (some t) = (fs.foldl (fun a f => a ++ f.1) c, r, some t) := by
  induction fs with
  | nil => intro c r t _ _; rfl
  | cons f rest ih =>
      intro c r t ht hb
      by_cases hh : strStartsWith f.1 "."
      · simp only [scanLoop, hh, if_true]
        exact ih (c ++ f.1) r t ht (fun g hg => hb g (List.mem_cons_of_mem f hg))
      · have hf : f.2 ≤ t := hb f (List.mem_cons_self f rest) (by simp [hh])
        have hu : (decide (t = 0) || decide (t < f.2)) = false := by
          simp only [Bool.or_eq_false_iff, decide_eq_false_iff_not]
          exact ⟨ht, by omega⟩
        simp only [scanLoop, hh, Bool.false_eq_true, if_false, hu]
        rw [List.foldl_cons]
        exact ih (c ++ f.1) r t ht (fun g hg => hb g (List.mem_cons_of_mem f hg))

/-- The state of a coordinator whose fingerprint already matches the
directory: the hash equals the current name concatenation and the non-zero
last check is at least as new as every visible .json file. -/
def warmState (dir : DirSnapshot) (st : HKState) : Prop :=
  st.hash = some (concatJsonNames dir)
  ∧ ∃ t, st.lc = some t ∧ t ≠ 0
      ∧ ∀ f ∈ dir, strEndsWith f.1 ".json" = true →
          strStartsWith f.1 "." = false → f.2 ≤ t

/-- A warm coordinator observes no change: the check scans the directory
but reports false and leaves both fingerprint fields unchanged. -/
theorem check_warm (dir : DirSnapshot) (st : HKState) (h : warmState dir st) :
    check_for_state_file_changes dir true st.lc st.hash = (false, st.lc, st.hash) := by
  obtain ⟨hh, t, hlc, ht, hb⟩ := h
  unfold check_for_state_file_changes
  rw [hlc]
  have hw := scanLoop_warm (dir.filter (fun f => strEndsWith f.1 ".json")) "" false t ht
    (fun f hf => hb f (List.mem_filter.mp hf).1 (by
      have := (List.mem_filter.mp hf).2
      simpa using this))
  simp only [Bool.not_true, Bool.false_eq_true, if_false, hw]
  have hc : ((dir.filter (fun f => strEndsWith f.1 ".json")).foldl
      (fun a f => a ++ f.1) "") = concatJsonNames dir := rfl
  rw [hc, hh]
  simp [hlc]

/-- Under a warm state housekeeping only performs its directory scan:
no reload, no parse, the collection object untouched. -/
theorem housekeeping_warm_step (dir : DirSnapshot) (st : HKState)
    (h : warmState dir st) :
    housekeeping dir true st = { st with scans := st.scans + 1 } := by
  unfold housekeeping
  rw [check_warm dir st h]
  rfl

/-- C6 amended: two immediate housekeeping calls with no on-disk change
each perform one directory scan (two in total, not at most one), re-parse
no file, and leave the collection pointer-identical. -/
theorem housekeeping_twice_warm (dir : DirSnapshot) (st : HKState)
    (h : warmState dir st) :
    (housekeeping dir true (housekeeping dir true st)).itemsId = st.itemsId
    ∧ (housekeeping dir true (housekeeping dir true st)).parses = st.parses
    ∧ (housekeeping dir true (housekeeping dir true st)).scans = st.scans + 2 := by
  have h1 := housekeeping_warm_step dir st h
  have hwarm2 : warmState dir { st with scans := st.scans + 1 } := by
    obtain ⟨hh, t, hlc, ht, hb⟩ := h
    exact ⟨hh, t, hlc, ht, hb⟩
  have h2 := housekeeping_warm_step dir { st with scans := st.scans + 1 } hwarm2
  rw [h1, h2]
  refine ⟨rfl, rfl, rfl⟩

/-- The one-file directory of the C6 scenario. -/
def dirC6 : DirSnapshot := [("pump.json", 5)]

/-- A coordinator state already warm for dirC6. -/
def hkStC6 : HKState := ⟨some 5, some "pump.json", 7, 0, 0⟩

/-- C6 counterexample: each housekeeping call rescans the directory, so two
immediate calls perform two directory scans, refuting the at-most-one-scan
reading; the no-reparse and pointer-identity parts do hold. -/
theorem housekeeping_two_scans_counterexample :
    (housekeeping dirC6 true (housekeeping dirC6 true hkStC6)).scans = 2
    ∧ ¬ ((housekeeping dirC6 true (housekeeping dirC6 true hkStC6)).scans ≤ 1)
    ∧ (housekeeping dirC6 true (housekeeping dirC6 true hkStC6)).parses = 0
    ∧ (housekeeping dirC6 true (housekeeping dirC6 true hkStC6)).itemsId = 7 := by
  refine ⟨rfl, by decide, rfl, rfl⟩

theorem housekeeping_twice_warm_witness :
    (housekeeping dirC6 true (housekeeping dirC6 true hkStC6)).itemsId = 7
    ∧ (housekeeping dirC6 true (housekeeping dirC6 true hkStC6)).parses = 0
    ∧ (housekeeping dirC6 true (housekeeping dirC6 true hkStC6)).scans = 2 :=
  housekeeping_twice_warm dirC6 hkStC6
    ⟨rfl, 5, rfl, by decide, by decide⟩

-- ===================== C7: hidden files ==================================

/-- Every item of a published collection originates from some directory
entry that the loop processed to it. -/
theorem loadFiles_mem (env : LoadEnv) :
    ∀ (ps : List (Nat × String × ReadResult)) (L : List Obj),
      loadFiles env ps = .ok L → ∀ x ∈ L,
        ∃ p ∈ ps, loadOne env p.1 p.2.1 p.2.2 = .ok (some x) := by
  intro ps
  induction ps with
  | nil =>
      intro L hL x hx
      injection hL with hL
      subst hL
      exact absurd hx (List.not_mem_nil x)
  | cons p rest ih =>
      intro L hL x hx
      obtain ⟨i, n, r⟩ := p
      cases e : loadOne env i n r with
      | error ex =>
          simp only [loadFiles, e] at hL
          exact Except.noConfusion hL
      | ok o =>
          cases o with
          | none =>
              simp only [loadFiles, e] at hL
              obtain ⟨q, hq1, hq2⟩ := ih L hL x hx
              exact ⟨q, List.mem_cons_of_mem _ hq1, hq2⟩
          | some item =>
              simp only [loadFiles, e] at hL
              cases e2 : loadFiles env rest with
              | error ex => rw [e2] at hL; exact Except.noConfusion hL
              | ok L' =>
                  rw [e2] at hL
                  injection hL with hL
                  subst hL
                  rcases List.mem_cons.mp hx with rfl | hx'
                  · exact ⟨(i, n, r), List.mem_cons_self _ _, e⟩
                  · obtain ⟨q, hq1, hq2⟩ := ih L' e2 x hx'
                    exact ⟨q, List.mem_cons_of_mem _ hq1, hq2⟩

/-- The modification time of a hidden entry never influences the scan
loop. -/
theorem scanLoop_hidden_mtime (nm : String) (m m' : Nat)
    (hh : strStartsWith nm "." = true) :
    ∀ (xs ys : List (String × Nat)) (c : String) (r : Bool) (lc : Option Nat),
      scanLoop (xs ++ (nm, m) :: ys) c r lc = scanLoop (xs ++ (nm, m') :: ys) c r lc := by
  intro xs
  induction xs with
  | nil =>
      intro ys c r lc
      simp [scanLoop, hh]
  | cons f rest ih =>
      intro ys c r lc
      by_cases hf : strStartsWith f.1 "."
      · simp only [List.cons_append, scanLoop, hf, if_true]
        exact ih ys (c ++ f.1) r lc
      · simp only [List.cons_append, scanLoop, hf, Bool.false_eq_true, if_false]
        by_cases hu : (match lc with
          | none => true
          | some t => decide (t = 0) || decide (t < f.2)) = true
        · rw [if_pos hu, if_pos hu]
          exact ih ys (c ++ f.1) true (some f.2)
        · rw [if_neg hu, if_neg hu]
          exact ih ys (c ++ f.1) r lc

/-- C7 amended: a hidden file never contributes an item to the loaded
collection, and its modification time never influences the change check;
however the file-name component of the fingerprint does include hidden
.json names, so whenever the stored hash differs from the current name
concatenation - including after adding or removing a hidden .json file -
the check signals that a reload is needed. -/
theorem hidden_files_behavior :
    (∀ (env : LoadEnv) (files : List (String × ReadResult)) (L : List Obj),
      load_state_files_internal env files = .ok L → ∀ x ∈ L,
        ∃ p ∈ (sortedJsonFiles files).enum,
          strStartsWith p.2.1 "." = false ∧ loadOne env p.1 p.2.1 p.2.2 = .ok (some x))
    ∧ (∀ (pre post : DirSnapshot) (nm : String) (m m' : Nat) (b : Bool)
        (lc : Option Nat) (hash : Option String), strStartsWith nm "." = true →
        check_for_state_file_changes (pre ++ (nm, m) :: post) b lc hash
          = check_for_state_file_changes (pre ++ (nm, m') :: post) b lc hash)
    ∧ (∀ (dir : DirSnapshot) (lc : Option Nat) (hash : Option String),
        hash ≠ some (concatJsonNames dir) →
        (check_for_state_file_changes dir true lc hash).1 = true) := by
  refine ⟨?_, ?_, ?_⟩
  · intro env files L hL x hx
    obtain ⟨p, hp1, hp2⟩ := loadFiles_mem env _ L hL x hx
    refine ⟨p, hp1, ?_, hp2⟩
    by_cases hhid : strStartsWith p.2.1 "." = true
    · simp only [loadOne, hhid, if_true] at hp2
      injection hp2 with hp2
      exact Option.noConfusion hp2
    · simpa using hhid
  · intro pre post nm m m' b lc hash hh
    cases b with
    | false => rfl
    | true =>
        unfold check_for_state_file_changes
        simp only [Bool.not_true, Bool.false_eq_true, if_false, List.filter_append,
          List.filter_cons]
        by_cases hj : strEndsWith nm ".json"
        · simp only [hj, if_pos]
          rw [scanLoop_hidden_mtime nm m m' hh]
        · simp only [hj, Bool.false_eq_true, if_false]
  · intro dir lc hash hne
    unfold check_for_state_file_changes
    simp only [Bool.not_true, Bool.false_eq_true, if_false]
    have hc := scanLoop_concat (dir.filter (fun f => strEndsWith f.1 ".json")) "" false lc
    rcases hsl : scanLoop (dir.filter (fun f => strEndsWith f.1 ".json")) "" false lc
      with ⟨concat, ret, lc'⟩
    rw [hsl] at hc
    simp only [hsl]
    rw [if_neg]
    · intro hcontra
      have hc2 : concat = concatJsonNames dir := hc
      rw [hc2] at hcontra
      exact hne hcontra

/-- C7 counterexample: starting from a warm check state for an empty
directory, adding a single hidden .json file changes the file-name
component of the fingerprint and makes the check signal a reload. -/
theorem hidden_file_fingerprint_counterexample :
    (check_for_state_file_changes [] true (some 10) (some "")).1 = false
    ∧ (check_for_state_file_changes [(".cache_metadata.json", 3)] true
        (some 10) (some "")).1 = true := by
  refine ⟨rfl, rfl⟩

theorem hidden_files_behavior_witness :
    check_for_state_file_changes [("pump.json", 1), (".cache_metadata.json", 99)]
        true (some 10) (some "pump.json.cache_metadata.json")
      = check_for_state_file_changes [("pump.json", 1), (".cache_metadata.json", 3)]
        true (some 10) (some "pump.json.cache_metadata.json") :=
  hidden_files_behavior.2.1 [("pump.json", 1)] [] ".cache_metadata.json" 99 3 true
    (some 10) (some "pump.json.cache_metadata.json") (by decide)

-- ===================== C8: DeviceName and its fallback ===================

/-- C8 amended: a reload never synthesizes a DeviceName - the loaded item
carries exactly the DeviceName of its parsed document - and when the
document has none, only the StateURLName annotation falls back to
Device(idx+1), derived from the enumeration index of the file in the
sorted directory listing, not from the file name. -/
theorem device_name_fallback (env : LoadEnv) (idx : Nat) (doc res : Obj)
    (hok : processFile env idx doc = .ok res) :
    lookupObj res "DeviceName" = lookupObj doc "DeviceName"
    ∧ (lookupObj doc "DeviceName" = none →
        lookupObj res "StateURLName" =
          some (.str (url_encode_device_name ("Device" ++ toString (idx + 1))))) := by
  refine ⟨processFile_lookup env idx doc res hok "DeviceName" (by decide), ?_⟩
  intro hdn
  unfold processFile at hok
  cases hcd : computeDescSave doc with
  | error e =>
      simp only [hcd] at hok
      exact Except.noConfusion hok
  | ok p =>
      obtain ⟨desc, save0⟩ := p
      simp only [hcd] at hok
      have hd2 : lookupObj (annotateBase env doc desc save0) "DeviceName" = none :=
        (annotateBase_lookup env doc desc save0 "DeviceName"
          (by decide) (by decide)).trans hdn
      have hdnod : deviceNameOrDefault (annotateBase env doc desc save0) idx
          = .ok ("Device" ++ toString (idx + 1)) := by
        unfold deviceNameOrDefault
        rw [hd2]
      simp only [hdnod] at hok
      split at hok
      · rw [generate_state_data_charts_lookup env idx _ res hok "StateURLName" (by decide)]
        exact lookupObj_setKey_self _ "StateURLName" _
      · injection hok with hok
        subst hok
        exact lookupObj_setKey_self _ "StateURLName" _

/-- The decoded pump.json document of the C8 scenario: a valid
PowerController state with no DeviceName field. -/
def pumpDocC8 : Obj :=
  [("StateFileType", .str "PowerController"), ("SaveTime", .pydt 3),
   ("Output", .obj []), ("Scheduler", .obj [])]

/-- The item the reload publishes for pumpDocC8 at enumeration index 0. -/
def pumpItemC8 : Obj :=
  [("StateFileType", .str "PowerController"), ("SaveTime", .pydt 3),
   ("Output", .obj []), ("Scheduler", .obj []),
   ("LocalLastSaveTime", .pydt 3), ("DeviceDescription", .str "Power Controller"),
   ("StateURLName", .str "Device1")]

/-- C8 counterexample: loading pump.json, whose document has no DeviceName,
yields an item that still has no DeviceName key; only the StateURLName
annotation receives the index-derived fallback Device1, unrelated to the
file name pump. -/
theorem device_name_counterexample :
    load_state_files_internal envC [("pump.json", .okVal (.obj pumpDocC8))]
      = .ok [pumpItemC8]
    ∧ lookupObj pumpItemC8 "DeviceName" = none
    ∧ lookupObj pumpItemC8 "StateURLName" = some (.str "Device1") := by
  refine ⟨rfl, rfl, rfl⟩

theorem device_name_fallback_witness :
    lookupObj pumpItemC8 "DeviceName" = none
    ∧ lookupObj pumpItemC8 "StateURLName"
        = some (.str (url_encode_device_name "Device1")) :=
  ⟨(device_name_fallback envC 0 pumpDocC8 pumpItemC8 rfl).1.trans rfl,
   (device_name_fallback envC 0 pumpDocC8 pumpItemC8 rfl).2 rfl⟩

-- ===================== C9: the worker loop and uncaught errors ===========

/-- A tick on which the reload hits a valid-JSON file whose top-level value
is a list, failing the line-811 assert with an AssertionError that the
worker except clause does not catch. -/
def tickCrashC9 : WorkerTick :=
  ⟨.ok true, false, true, [("a.json", .okVal (.arr []))]⟩

/-- C9 counterexample: an AssertionError raised inside one iteration (a
state file parsing to a non-object) is not in the caught set and kills the
worker loop instead of letting it continue to the stop event. -/
theorem worker_crash_counterexample :
    state_loader_worker envC [tickCrashC9] = .crashed .assertionError
    ∧ state_loader_worker envC [tickCrashC9] ≠ .stopped := by
  refine ⟨rfl, ?_⟩
  intro h
  rw [show state_loader_worker envC [tickCrashC9] = .crashed .assertionError from rfl] at h
  exact WorkerEnd.noConfusion h

/-- C9 amended: whenever every exception escaping an iteration body is one
of the caught classes (OSError, JSONDecodeError, RuntimeError, ValueError,
TypeError), the worker loop logs it, continues with the next tick, and runs
until the stop event. -/
theorem worker_caught_errors_continue (env : LoadEnv) (ticks : List WorkerTick)
    (h : ∀ t ∈ ticks, ∀ e, workerIterationExc env t = some e → workerCaught e = true) :
    state_loader_worker env ticks = .stopped := by
  induction ticks with
  | nil => rfl
  | cons t rest ih =>
      have hrest := ih (fun t' ht' e he => h t' (List.mem_cons_of_mem t ht') e he)
      cases he : workerIterationExc env t with
      | none => simp only [state_loader_worker, he, hrest]
      | some e =>
          have hc := h t (List.mem_cons_self t rest) e he
          simp only [state_loader_worker, he, hc, if_true, hrest]

/-- A tick whose iteration raises a caught OSError from the change check. -/
def tickOsC9 : WorkerTick := ⟨.error .osError, false, true, []⟩

theorem worker_caught_errors_continue_witness :
    state_loader_worker envC [tickOsC9] = .stopped :=
  worker_caught_errors_continue envC [tickOsC9] (by
    intro t ht e he
    simp only [List.mem_singleton] at ht
    subst ht
    have hx : workerIterationExc envC tickOsC9 = some PyExc.osError := rfl
    rw [hx] at he
    injection he with he
    subst he
    rfl)
